import Mathlib

/-
Shallow embedding of `run_sumo.py`: a SUMO/TraCI control loop that injects two
synthetic anomalies (a forced stop at loop step 50, an unauthorized vehicle at
loop step 100) and flags anomalies each step with two fixed heuristics
(speed below 0.1 for STOP_TIME_THRESHOLD consecutive observed steps; vehicle ID
starting with UNAUTHORIZED_VEHICLE_PREFIX).

Modelling choices:
  * vehicle speeds (Python floats) are rationals (ℚ); the literal 0.1 is 1/10;
  * the global dict `stop_counters` (string keys, int values) is a total
    function `String → Option Int`, `none` meaning the key is absent;
  * the remote TraCI API is a record of call outcomes; a call either returns a
    value or raises a TraCIException, modelled as `Except String`;
  * Python `s.startswith(p)` is the character-sequence prefix test;
  * printed `[ANOMALY DETECTED]` lines are values of an `Anomaly` type, and
    commands sent to the simulator are values of a `Command` type.
-/

namespace RunSumo

/-- `STOP_TIME_THRESHOLD = 5`: # of consecutive steps stopped -> anomaly. -/
def STOP_TIME_THRESHOLD : Int := 5

/-- `UNAUTHORIZED_VEHICLE_PREFIX = "unauth"`: reserved ID start for injected vehicles. -/
def UNAUTHORIZED_VEHICLE_PREFIX : String := "unauth"

/-- One observed vehicle at a detection step: its ID (an element of
`traci.vehicle.getIDList()`) and its speed (`traci.vehicle.getSpeed(vid)`). -/
structure Obs where
  id : String
  speed : ℚ
deriving DecidableEq, Repr

/-- The global dictionary `stop_counters`. -/
abbrev Counters := String → Option Int

/-- The initial value `stop_counters = {}`. -/
def emptyCounters : Counters := fun _ => none

/-- An anomaly reported by `detect_anomalies` (one printed line). -/
inductive Anomaly where
  | stopped : String → Anomaly
  | unauthorized : String → Anomaly
deriving DecidableEq, Repr

/-- Python `s.startswith(p)`: `p` is a prefix of the character sequence `s`. -/
def pyStartswith (s p : String) : Bool := p.data.isPrefixOf s.data

/-- The body of the `for vid in vehicle_ids` loop of `detect_anomalies`, for one
observed vehicle `v`: update `stop_counters` and report the anomalies printed
for `v` (the prolonged-stop rule, then the unauthorized-ID rule). -/
def detectVehicle (stop_counters : Counters) (v : Obs) : Counters × List Anomaly :=
  let (c1, stopAnoms) :=
    if v.speed < (0.1:ℚ) then  -- Consider as "stopped"
      let n := (stop_counters v.id).getD 0 + 1
      (fun x => if x = v.id then some n else stop_counters x,
        if n = STOP_TIME_THRESHOLD then [Anomaly.stopped v.id] else [])
    else
      (fun x => if x = v.id then some 0 else stop_counters x, [])
  (c1, stopAnoms ++
    (if pyStartswith v.id UNAUTHORIZED_VEHICLE_PREFIX then [Anomaly.unauthorized v.id] else []))

/-- `detect_anomalies()`: iterate `detectVehicle` over the current ID list
(with each vehicle's observed speed), starting from the current
`stop_counters`; return the updated counters and the reported anomalies in
order. -/
def detect_anomalies (stop_counters : Counters) (vehicle_ids : List Obs) :
    Counters × List Anomaly :=
  vehicle_ids.foldl (fun acc v =>
    ((detectVehicle acc.1 v).1, acc.2 ++ (detectVehicle acc.1 v).2)) (stop_counters, [])

/-- Run `detect_anomalies` once per detection step over a trace of per-step
observations, threading `stop_counters`; returns the final counters and the
per-step anomaly reports. -/
def runDetect (stop_counters : Counters) : List (List Obs) → Counters × List (List Anomaly)
  | [] => (stop_counters, [])
  | s :: rest =>
    let r := detect_anomalies stop_counters s
    let r2 := runDetect r.1 rest
    (r2.1, r.2 :: r2.2)

/-- The anomalies reported at detection step `i` of a trace (`[]` past the end). -/
def anomaliesAt (stop_counters : Counters) (steps : List (List Obs)) (i : Nat) : List Anomaly :=
  ((runDetect stop_counters steps).2).getD i []

/-- A trace in which a single vehicle `vid` is present at every step, with the
given speeds. -/
def soloTrace (vid : String) (speeds : List ℚ) : List (List Obs) :=
  speeds.map fun s => [⟨vid, s⟩]

/-- The counter update `detect_anomalies` performs for a key it observes with
the given speed: increment below the 0.1 threshold, reset to 0 otherwise. -/
def step1 (o : Option Int) (s : ℚ) : Option Int :=
  if s < (0.1:ℚ) then some (o.getD 0 + 1) else some 0

/-- Trailing-streak fold: the counter value reached from `k` after the given
sequence of observed speeds. -/
def streakFrom (k : Int) (speeds : List ℚ) : Int :=
  speeds.foldl (fun n s => if s < (0.1:ℚ) then n + 1 else 0) k

/-- The length of the trailing run of below-0.1 observations. -/
def trailingStopped (speeds : List ℚ) : Nat :=
  speeds.foldl (fun n s => if s < (0.1:ℚ) then n + 1 else 0) 0

/-- The speeds at which a given key is observed during one detection step, in
iteration order. -/
def obsSpeedsIn (vehicle_ids : List Obs) (vid : String) : List ℚ :=
  vehicle_ids.filterMap fun v => if v.id = vid then some v.speed else none

/-- The speeds at which a given key is observed over a whole trace. -/
def obsSpeeds (steps : List (List Obs)) (vid : String) : List ℚ :=
  steps.flatMap (obsSpeedsIn · vid)

/-- The ID built by `inject_unauthorized_vehicle`:
`UNAUTHORIZED_VEHICLE_PREFIX + str(int(time.time()))`, the integer timestamp
modelled as a natural number `t`. -/
def new_id (t : Nat) : String := UNAUTHORIZED_VEHICLE_PREFIX ++ toString t

/-- A state-changing command sent to the simulator through the API. -/
inductive Command where
  | setSpeed : String → ℚ → Command
  | addVehicle : String → String → Command
deriving DecidableEq, Repr

/-- Outcomes of the remote TraCI API calls made by the script. Each call
either returns a value (`Except.ok`) or raises a `TraCIException`, modelled as
`Except.error` carrying the exception message. -/
structure Traci where
  simulationStep : Except String Unit
  getIDList : Except String (List String)
  getSpeed : String → Except String ℚ
  add : String → String → Except String Unit
  setSpeed : String → ℚ → Except String Unit

/-- `inject_sudden_stop_anomaly()`: read the ID list; if it is empty, return
without issuing any command; otherwise force `random.choice(vehicle_ids)`
(the random draw modelled by an arbitrary index `choice`, reduced mod the list
length) to speed 0. Returns the commands issued. An API error propagates:
there is no try/except in this function. -/
def inject_sudden_stop_anomaly (api : Traci) (choice : Nat) : Except String (List Command) :=
  match api.getIDList with
  | .error e => .error e
  | .ok [] => .ok []
  | .ok (v :: vs) =>
    match api.setSpeed ((v :: vs).getD (choice % (v :: vs).length) v) 0 with
    | .error e => .error e
    | .ok _ => .ok [Command.setSpeed ((v :: vs).getD (choice % (v :: vs).length) v) 0]

/-- `inject_unauthorized_vehicle()`: build `new_id` and try
`traci.vehicle.add` on route `"route_0"`; a `TraCIException` is caught, an
`[ERROR]` line is printed, and execution continues. The global `stop_counters`
is passed through untouched (the function never references it). Returns the
updated state and the printed lines. -/
def inject_unauthorized_vehicle (api : Traci) (t : Nat) (stop_counters : Counters) :
    Except String (Counters × List String) :=
  match api.add (new_id t) "route_0" with
  | .ok _ => .ok (stop_counters,
      ["[Anomaly Injection] Injecting unauthorized vehicle: " ++ new_id t])
  | .error e => .ok (stop_counters,
      ["[ERROR] Could not inject unauthorized vehicle: " ++ e])

/-- `detect_anomalies()` against the fallible API: read the ID list, then for
each vehicle read its speed and run the detection rules. Any API error
propagates: there is no try/except in this function. On an error-free API this
agrees with `detect_anomalies` on the observed (id, speed) pairs. -/
def detect_anomaliesE (api : Traci) (stop_counters : Counters) :
    Except String (Counters × List Anomaly) :=
  match api.getIDList with
  | .error e => .error e
  | .ok vehicle_ids =>
    vehicle_ids.foldlM (fun acc vid =>
      match api.getSpeed vid with
      | .error e => .error e
      | .ok speed =>
        .ok ((detectVehicle acc.1 ⟨vid, speed⟩).1,
          acc.2 ++ (detectVehicle acc.1 ⟨vid, speed⟩).2)) (stop_counters, [])

/-- One iteration of the main loop of `run_simulation()` at loop index `step`:
advance the simulation, run the injection due at step 50, run the injection
due at step 100, then run detection. Any uncaught API error propagates. -/
def loop_body (api : Traci) (step t choice : Nat) (stop_counters : Counters) :
    Except String (Counters × List Anomaly) :=
  match api.simulationStep with
  | .error e => .error e
  | .ok _ =>
    match (if step = 50 then inject_sudden_stop_anomaly api choice else .ok []) with
    | .error e => .error e
    | .ok _ =>
      match (if step = 100 then inject_unauthorized_vehicle api t stop_counters
             else .ok (stop_counters, [])) with
      | .error e => .error e
      | .ok r => detect_anomaliesE api r.1

/-- The actions performed by one iteration of `for step in range(300)`, in
program order: `traci.simulationStep()`, then the forced-stop injection when
`step == 50`, then the unauthorized-vehicle injection when `step == 100`,
then `detect_anomalies()`. -/
inductive Event where
  | simStep : Nat → Event
  | injectStop : Nat → Event
  | injectUnauth : Nat → Event
  | detectStep : Nat → Event
deriving DecidableEq, Repr

/-- The actions of loop iteration `step`, in program order. -/
def stepEvents (step : Nat) : List Event :=
  [Event.simStep step]
    ++ (if step = 50 then [Event.injectStop step] else [])
    ++ (if step = 100 then [Event.injectUnauth step] else [])
    ++ [Event.detectStep step]

/-- The action trace of the main loop of `run_simulation()`. -/
def run_simulation_events : List Event :=
  (List.range 300).flatMap stepEvents

def isStopInjection : Event → Bool
  | .injectStop _ => true
  | _ => false

def isUnauthInjection : Event → Bool
  | .injectUnauth _ => true
  | _ => false

/-- A concrete API in which every call raises a `TraCIException`. -/
def failingApi : Traci where
  simulationStep := .error "connection closed"
  getIDList := .error "connection closed"
  getSpeed := fun _ => .error "connection closed"
  add := fun _ _ => .error "connection closed"
  setSpeed := fun _ _ => .error "connection closed"

/-- A concrete API with two stopped vehicles and every call succeeding. -/
def okApi : Traci where
  simulationStep := .ok ()
  getIDList := .ok ["veh0", "veh1"]
  getSpeed := fun _ => .ok 0
  add := fun _ _ => .ok ()
  setSpeed := fun _ _ => .ok ()

/-- A concrete API whose `add` raises (unknown route) while the rest succeeds. -/
def addFailsApi : Traci where
  simulationStep := .ok ()
  getIDList := .ok []
  getSpeed := fun _ => .ok 0
  add := fun _ _ => .error "route route_0 not known"
  setSpeed := fun _ _ => .ok ()

/-- A concrete API with no vehicles on the network and every call succeeding. -/
def noVehiclesApi : Traci where
  simulationStep := .ok ()
  getIDList := .ok []
  getSpeed := fun _ => .ok 0
  add := fun _ _ => .ok ()
  setSpeed := fun _ _ => .ok ()

/-! ### Basic lemmas about one `detectVehicle` iteration -/

theorem detectVehicle_counters (c : Counters) (v : Obs) (x : String) :
    (detectVehicle c v).1 x = if x = v.id then step1 (c v.id) v.speed else c x := by
  by_cases hs : v.speed < (0.1:ℚ) <;> simp [detectVehicle, step1, hs]

theorem stopped_mem_detectVehicle (c : Counters) (v : Obs) (w : String) :
    Anomaly.stopped w ∈ (detectVehicle c v).2 ↔
      w = v.id ∧ v.speed < (0.1:ℚ) ∧ (c v.id).getD 0 + 1 = STOP_TIME_THRESHOLD := by
  by_cases hs : v.speed < (0.1:ℚ)
  · by_cases hn : (c v.id).getD 0 + 1 = STOP_TIME_THRESHOLD <;>
      by_cases hu : pyStartswith v.id UNAUTHORIZED_VEHICLE_PREFIX <;>
      simp [detectVehicle, hs, hn, hu, and_comm]
  · by_cases hu : pyStartswith v.id UNAUTHORIZED_VEHICLE_PREFIX <;>
      simp [detectVehicle, hs, hu]

theorem unauthorized_mem_detectVehicle (c : Counters) (v : Obs) (w : String) :
    Anomaly.unauthorized w ∈ (detectVehicle c v).2 ↔
      w = v.id ∧ pyStartswith v.id UNAUTHORIZED_VEHICLE_PREFIX = true := by
  by_cases hs : v.speed < (0.1:ℚ)
  · by_cases hn : (c v.id).getD 0 + 1 = STOP_TIME_THRESHOLD <;>
      by_cases hu : pyStartswith v.id UNAUTHORIZED_VEHICLE_PREFIX <;>
      simp [detectVehicle, hs, hn, hu, and_comm]
  · by_cases hu : pyStartswith v.id UNAUTHORIZED_VEHICLE_PREFIX <;>
      simp [detectVehicle, hs, hu, and_comm]

/-! ### Unfolding `detect_anomalies` one vehicle at a time -/

theorem detect_foldl_acc (vehicle_ids : List Obs) (c : Counters) (a : List Anomaly) :
    vehicle_ids.foldl (fun acc v =>
        ((detectVehicle acc.1 v).1, acc.2 ++ (detectVehicle acc.1 v).2)) (c, a) =
      ((detect_anomalies c vehicle_ids).1, a ++ (detect_anomalies c vehicle_ids).2) := by
  induction vehicle_ids generalizing c a with
  | nil => simp [detect_anomalies]
  | cons v l ih =>
    simp only [List.foldl_cons, detect_anomalies]
    rw [ih, ih]
    simp [List.append_assoc]

theorem detect_anomalies_nil (c : Counters) : detect_anomalies c [] = (c, []) := rfl

theorem detect_anomalies_cons (c : Counters) (v : Obs) (l : List Obs) :
    detect_anomalies c (v :: l) =
      ((detect_anomalies (detectVehicle c v).1 l).1,
        (detectVehicle c v).2 ++ (detect_anomalies (detectVehicle c v).1 l).2) := by
  simp only [detect_anomalies, List.foldl_cons]
  exact detect_foldl_acc l _ _

/-! ### The per-key counter after a step and after a run -/

theorem detect_anomalies_counters (vehicle_ids : List Obs) (c : Counters) (x : String) :
    (detect_anomalies c vehicle_ids).1 x = (obsSpeedsIn vehicle_ids x).foldl step1 (c x) := by
  induction vehicle_ids generalizing c with
  | nil => simp [detect_anomalies, obsSpeedsIn]
  | cons v l ih =>
    rw [detect_anomalies_cons, ih]
    by_cases hv : v.id = x
    · subst hv
      simp [obsSpeedsIn, detectVehicle_counters]
    · have hv' : ¬ x = v.id := fun h => hv h.symm
      simp [obsSpeedsIn, hv, detectVehicle_counters, hv']

theorem runDetect_counters (steps : List (List Obs)) (c : Counters) (x : String) :
    (runDetect c steps).1 x = (obsSpeeds steps x).foldl step1 (c x) := by
  induction steps generalizing c with
  | nil => simp [runDetect, obsSpeeds]
  | cons s rest ih =>
    simp only [runDetect, obsSpeeds, List.flatMap_cons, List.foldl_append]
    rw [ih, detect_anomalies_counters]
    rfl

/-! ### Streak folds -/

theorem foldl_step1_some (speeds : List ℚ) (k : Int) :
    speeds.foldl step1 (some k) = some (streakFrom k speeds) := by
  induction speeds generalizing k with
  | nil => simp [streakFrom]
  | cons s rest ih =>
    by_cases hs : s < (0.1:ℚ)
    · simpa [step1, streakFrom, hs] using ih (k + 1)
    · simpa [step1, streakFrom, hs] using ih 0

theorem foldl_step1_none (speeds : List ℚ) :
    speeds.foldl step1 none =
      if speeds = [] then none else some (streakFrom 0 speeds) := by
  cases speeds with
  | nil => simp
  | cons s rest =>
    have h1 : step1 none s = step1 (some 0) s := rfl
    simp only [List.foldl_cons, h1, if_neg (List.cons_ne_nil s rest)]
    exact foldl_step1_some (s :: rest) 0

theorem streakFrom_natCast (speeds : List ℚ) (m : Nat) :
    streakFrom (↑m) speeds =
      ↑(speeds.foldl (fun n s => if s < (0.1:ℚ) then n + 1 else 0) m) := by
  induction speeds generalizing m with
  | nil => simp [streakFrom]
  | cons s rest ih =>
    by_cases hs : s < (0.1:ℚ)
    · simpa [streakFrom, hs, Int.natCast_succ] using ih (m + 1)
    · simpa [streakFrom, hs] using ih 0

theorem streakFrom_zero_eq_trailingStopped (speeds : List ℚ) :
    streakFrom 0 speeds = ↑(trailingStopped speeds) := by
  simpa using streakFrom_natCast speeds 0

theorem streakFrom_cons (k : Int) (s : ℚ) (l : List ℚ) :
    streakFrom k (s :: l) = streakFrom (if s < (0.1:ℚ) then k + 1 else 0) l := by
  by_cases hs : s < (0.1:ℚ) <;> simp [streakFrom, hs]

/-! ### Step equations for `runDetect` / `anomaliesAt` -/

theorem runDetect_cons (c : Counters) (s : List Obs) (rest : List (List Obs)) :
    runDetect c (s :: rest) =
      ((runDetect (detect_anomalies c s).1 rest).1,
        (detect_anomalies c s).2 :: (runDetect (detect_anomalies c s).1 rest).2) := rfl

theorem detect_anomalies_singleton (c : Counters) (v : Obs) :
    detect_anomalies c [v] = ((detectVehicle c v).1, (detectVehicle c v).2) := by
  rw [detect_anomalies_cons]
  simp [detect_anomalies_nil]

theorem anomaliesAt_cons_zero (c : Counters) (s : List Obs) (rest : List (List Obs)) :
    anomaliesAt c (s :: rest) 0 = (detect_anomalies c s).2 := rfl

theorem anomaliesAt_cons_succ (c : Counters) (s : List Obs) (rest : List (List Obs)) (i : Nat) :
    anomaliesAt c (s :: rest) (i + 1) = anomaliesAt (detect_anomalies c s).1 rest i := rfl

/-! ### The central characterization: on a single-vehicle trace, the stop flag
at step `i` fires exactly when the counter, started from the incoming value and
folded over the observed speeds up to and including step `i`, lands exactly on
`STOP_TIME_THRESHOLD`. -/

theorem stopped_mem_anomaliesAt_solo (vid : String) (speeds : List ℚ) (c : Counters) (i : Nat) :
    Anomaly.stopped vid ∈ anomaliesAt c (soloTrace vid speeds) i ↔
      i < speeds.length ∧
        streakFrom ((c vid).getD 0) (speeds.take (i + 1)) = STOP_TIME_THRESHOLD := by
  induction speeds generalizing c i with
  | nil => simp [soloTrace, anomaliesAt, runDetect]
  | cons s rest ih =>
    have hsolo : soloTrace vid (s :: rest) = [Obs.mk vid s] :: soloTrace vid rest := by
      simp [soloTrace]
    rw [hsolo]
    cases i with
    | zero =>
      rw [anomaliesAt_cons_zero, detect_anomalies_singleton, stopped_mem_detectVehicle]
      simp only [List.take_succ_cons, List.take_zero, streakFrom_cons]
      by_cases hs : s < (0.1:ℚ)
      · simp [hs, streakFrom]
      · simp [hs, streakFrom, STOP_TIME_THRESHOLD]
    | succ i =>
      rw [anomaliesAt_cons_succ, ih]
      have hc : ((detect_anomalies c [Obs.mk vid s]).1 vid).getD 0 =
          if s < (0.1:ℚ) then (c vid).getD 0 + 1 else 0 := by
        rw [detect_anomalies_singleton, detectVehicle_counters]
        by_cases hs : s < (0.1:ℚ) <;> simp [step1, hs]
      rw [hc]
      rw [List.take_succ_cons, streakFrom_cons]
      simp [Nat.succ_lt_succ_iff]

/-! ### Trailing runs of below-threshold observations -/

theorem stopped_mem_solo_iff_trailing (vid : String) (speeds : List ℚ) (i : Nat) :
    Anomaly.stopped vid ∈ anomaliesAt emptyCounters (soloTrace vid speeds) i ↔
      i < speeds.length ∧ trailingStopped (speeds.take (i + 1)) = 5 := by
  rw [stopped_mem_anomaliesAt_solo]
  have he : ((emptyCounters vid).getD 0 : Int) = 0 := rfl
  rw [he, streakFrom_zero_eq_trailingStopped]
  have : (↑(trailingStopped (speeds.take (i + 1))) = STOP_TIME_THRESHOLD) ↔
      trailingStopped (speeds.take (i + 1)) = 5 := by
    rw [STOP_TIME_THRESHOLD]; omega
  rw [this]

theorem trailingStopped_append_singleton (xs : List ℚ) (y : ℚ) :
    trailingStopped (xs ++ [y]) =
      if y < (0.1:ℚ) then trailingStopped xs + 1 else 0 := by
  simp [trailingStopped, List.foldl_append]

theorem below_of_mem_drop_trailing (xs : List ℚ) :
    ∀ x ∈ xs.drop (xs.length - trailingStopped xs), x < (0.1:ℚ) := by
  induction xs using List.reverseRecOn with
  | nil => simp
  | append_singleton xs y ih =>
    rw [trailingStopped_append_singleton]
    by_cases hy : y < (0.1:ℚ)
    · rw [if_pos hy]
      intro x hx
      have hlen : (xs ++ [y]).length = xs.length + 1 := by simp
      rw [hlen] at hx
      have hidx : xs.length + 1 - (trailingStopped xs + 1) = xs.length - trailingStopped xs := by
        omega
      rw [hidx, List.drop_append_of_le_length (Nat.sub_le _ _)] at hx
      rcases List.mem_append.1 hx with h | h
      · exact ih x h
      · simp at h; simpa [h] using hy
    · rw [if_neg hy]
      intro x hx
      have : (xs ++ [y]).drop ((xs ++ [y]).length - 0) = [] := by
        simp [List.drop_length]
      rw [this] at hx
      simp at hx

theorem trailing_take_succ (speeds : List ℚ) (k : Nat) (h : k < speeds.length) :
    trailingStopped (speeds.take (k + 1)) =
      if speeds.getD k 1 < (0.1:ℚ) then trailingStopped (speeds.take k) + 1 else 0 := by
  rw [List.take_succ, List.getElem?_eq_getElem h]
  rw [List.getD_eq_getElem speeds 1 h]
  simp only [Option.toList_some]
  rw [trailingStopped_append_singleton]

theorem trailing_take_add (speeds : List ℚ) (i : Nat) :
    ∀ d : Nat, i + d < speeds.length →
      (∀ k, i < k → k ≤ i + d → speeds.getD k 1 < (0.1:ℚ)) →
      trailingStopped (speeds.take (i + d + 1)) =
        trailingStopped (speeds.take (i + 1)) + d := by
  intro d
  induction d with
  | zero => intro _ _; simp
  | succ d ih =>
    intro hlen hbelow
    have hk : speeds.getD (i + d + 1) 1 < (0.1:ℚ) := hbelow _ (by omega) (by omega)
    have h1 : i + (d + 1) = (i + d) + 1 := by omega
    rw [h1] at hlen ⊢
    rw [trailing_take_succ speeds (i + d + 1) hlen, if_pos hk]
    rw [ih (by omega) (fun k hk1 hk2 => hbelow k hk1 (by omega))]
    omega

/-! ### Claim C1 -/

/-- C1 (counterexample): with a single vehicle stopped (speed 0) for six
consecutive detection steps, the observed speed is below 0.1 at detection step
5 and at each of the four immediately preceding consecutive detection steps,
yet no stop anomaly is flagged at step 5 (the counter is 6 there and the code
tests `== STOP_TIME_THRESHOLD`), so the claimed "if and only if" fails. -/
theorem claim_C1_counterexample :
    (([0, 0, 0, 0, 0, 0] : List ℚ).getD 1 1 < (0.1:ℚ) ∧
      ([0, 0, 0, 0, 0, 0] : List ℚ).getD 2 1 < (0.1:ℚ) ∧
      ([0, 0, 0, 0, 0, 0] : List ℚ).getD 3 1 < (0.1:ℚ) ∧
      ([0, 0, 0, 0, 0, 0] : List ℚ).getD 4 1 < (0.1:ℚ) ∧
      ([0, 0, 0, 0, 0, 0] : List ℚ).getD 5 1 < (0.1:ℚ)) ∧
    Anomaly.stopped "veh0" ∉
      anomaliesAt emptyCounters (soloTrace "veh0" [0, 0, 0, 0, 0, 0]) 5 := by
  norm_num [anomaliesAt, runDetect, detect_anomalies, detectVehicle, soloTrace,
    emptyCounters, STOP_TIME_THRESHOLD,
    show pyStartswith "veh0" UNAUTHORIZED_VEHICLE_PREFIX = false from rfl]

/-- C1 (amended): for a vehicle observed at every detection step, the script
flags a stop anomaly at detection step `i` if and only if the trailing run of
consecutive detection steps with observed speed below 0.1, up to and including
step `i`, has length exactly N = STOP_TIME_THRESHOLD = 5 (below 0.1 at that
step and at the 4 immediately preceding consecutive detection steps, and the
run does not extend further back). -/
theorem claim_C1_amended (vid : String) (speeds : List ℚ) (i : Nat) :
    Anomaly.stopped vid ∈ anomaliesAt emptyCounters (soloTrace vid speeds) i ↔
      i < speeds.length ∧
        (↑(trailingStopped (speeds.take (i + 1))) : Int) = STOP_TIME_THRESHOLD := by
  rw [stopped_mem_solo_iff_trailing, STOP_TIME_THRESHOLD]
  constructor
  · rintro ⟨h1, h2⟩; exact ⟨h1, by omega⟩
  · rintro ⟨h1, h2⟩; exact ⟨h1, by omega⟩

theorem claim_C1_witness :
    Anomaly.stopped "veh0" ∈
      anomaliesAt emptyCounters (soloTrace "veh0" [0, 0, 0, 0, 0]) 4 :=
  (claim_C1_amended "veh0" [0, 0, 0, 0, 0] 4).mpr
    (by norm_num [trailingStopped, STOP_TIME_THRESHOLD])

/-! ### Claim C4 -/

/-- C4 (counterexample): a vehicle observed with speed 1/20 — not 0, but below
the 0.1 threshold — at five consecutive steps is flagged with the
prolonged-stop anomaly, so a flag does not require the observed speed to be
exactly 0 at every counted step. -/
theorem claim_C4_counterexample :
    Anomaly.stopped "veh0" ∈
      anomaliesAt emptyCounters
        (soloTrace "veh0" [1/20, 1/20, 1/20, 1/20, 1/20]) 4 ∧
    ¬ ((1/20 : ℚ) = 0) := by
  norm_num [anomaliesAt, runDetect, detect_anomalies, detectVehicle, soloTrace,
    emptyCounters, STOP_TIME_THRESHOLD,
    show pyStartswith "veh0" UNAUTHORIZED_VEHICLE_PREFIX = false from rfl]

/-- C4 (amended): a vehicle is flagged with the prolonged-stop anomaly only if
its observed speed was below the 0.1 threshold (not necessarily exactly 0) at
every one of the STOP_TIME_THRESHOLD counted steps. -/
theorem claim_C4_amended (vid : String) (speeds : List ℚ) (i : Nat)
    (h : Anomaly.stopped vid ∈ anomaliesAt emptyCounters (soloTrace vid speeds) i) :
    ∀ x ∈ (speeds.take (i + 1)).drop
        ((speeds.take (i + 1)).length - STOP_TIME_THRESHOLD.toNat), x < (0.1:ℚ) := by
  rw [stopped_mem_solo_iff_trailing] at h
  have ht : STOP_TIME_THRESHOLD.toNat = 5 := rfl
  rw [ht, ← h.2]
  exact below_of_mem_drop_trailing _

theorem claim_C4_witness : (0:ℚ) < (0.1:ℚ) :=
  claim_C4_amended "veh0" [0, 0, 0, 0, 0] 4
    (by
      norm_num [anomaliesAt, runDetect, detect_anomalies, detectVehicle, soloTrace,
        emptyCounters, STOP_TIME_THRESHOLD,
        show pyStartswith "veh0" UNAUTHORIZED_VEHICLE_PREFIX = false from rfl])
    0 (by norm_num [STOP_TIME_THRESHOLD])

/-! ### Claim C8 -/

/-- C8: within one uninterrupted stopped streak the stop flag is raised
exactly once: (1) the detection rule flags a vehicle iff it is observed below
0.1 and its counter lands exactly on STOP_TIME_THRESHOLD (the test is
equality, not greater-or-equal); (2) if the flag fires at two steps `i < j`
of a single-vehicle trace then at some step after `i` and up to `j` the
observed speed was at least 0.1, i.e. the counter was reset to 0 in between. -/
theorem claim_C8_equality_once_per_streak :
    (∀ (c : Counters) (v : Obs) (w : String),
        Anomaly.stopped w ∈ (detectVehicle c v).2 ↔
          w = v.id ∧ v.speed < (0.1:ℚ) ∧ (c v.id).getD 0 + 1 = STOP_TIME_THRESHOLD) ∧
    (∀ (vid : String) (speeds : List ℚ) (i j : Nat), i < j →
        Anomaly.stopped vid ∈ anomaliesAt emptyCounters (soloTrace vid speeds) i →
        Anomaly.stopped vid ∈ anomaliesAt emptyCounters (soloTrace vid speeds) j →
        ∃ k, i < k ∧ k ≤ j ∧ ¬ (speeds.getD k 1 < (0.1:ℚ))) := by
  refine ⟨stopped_mem_detectVehicle, ?_⟩
  intro vid speeds i j hij hi hj
  rw [stopped_mem_solo_iff_trailing] at hi hj
  by_contra hcon
  push_neg at hcon
  obtain ⟨d, rfl⟩ : ∃ d, j = i + d := ⟨j - i, by omega⟩
  have hadd := trailing_take_add speeds i d hj.1 (fun k h1 h2 => hcon k h1 h2)
  have h1 := hi.2
  have h2 := hj.2
  omega

theorem claim_C8_witness :
    ∃ k, 4 < k ∧ k ≤ 10 ∧
      ¬ (([0, 0, 0, 0, 0, 1, 0, 0, 0, 0, 0] : List ℚ).getD k 1 < (0.1:ℚ)) :=
  claim_C8_equality_once_per_streak.2 "veh0" [0, 0, 0, 0, 0, 1, 0, 0, 0, 0, 0] 4 10
    (by norm_num)
    (by
      norm_num [anomaliesAt, runDetect, detect_anomalies, detectVehicle, soloTrace,
        emptyCounters, STOP_TIME_THRESHOLD,
        show pyStartswith "veh0" UNAUTHORIZED_VEHICLE_PREFIX = false from rfl])
    (by
      norm_num [anomaliesAt, runDetect, detect_anomalies, detectVehicle, soloTrace,
        emptyCounters, STOP_TIME_THRESHOLD,
        show pyStartswith "veh0" UNAUTHORIZED_VEHICLE_PREFIX = false from rfl])

/-! ### Unauthorized-vehicle detection -/

theorem unauthorized_mem_detect_anomalies (c : Counters) (l : List Obs) (w : String) :
    Anomaly.unauthorized w ∈ (detect_anomalies c l).2 ↔
      (∃ v ∈ l, v.id = w) ∧ pyStartswith w UNAUTHORIZED_VEHICLE_PREFIX = true := by
  induction l generalizing c with
  | nil => simp [detect_anomalies_nil]
  | cons v l ih =>
    rw [detect_anomalies_cons]
    simp only [List.mem_append, unauthorized_mem_detectVehicle, ih, List.mem_cons]
    constructor
    · rintro (⟨rfl, h2⟩ | ⟨⟨u, hu, hid⟩, h2⟩)
      · exact ⟨⟨v, Or.inl rfl, rfl⟩, h2⟩
      · exact ⟨⟨u, Or.inr hu, hid⟩, h2⟩
    · rintro ⟨⟨u, hu | hu, hid⟩, h2⟩
      · subst hu
        exact Or.inl ⟨hid.symm, hid ▸ h2⟩
      · exact Or.inr ⟨⟨u, hu, hid⟩, h2⟩

/-! ### Claim C2 -/

/-- C2: at every detection step, a vehicle present in the simulation is
flagged as an unauthorized vehicle if and only if its ID starts with the
reserved prefix `UNAUTHORIZED_VEHICLE_PREFIX` (`"unauth"`); no other vehicle
is ever flagged as unauthorized. -/
theorem claim_C2_unauthorized_iff (c : Counters) (l : List Obs) (w : String) :
    Anomaly.unauthorized w ∈ (detect_anomalies c l).2 ↔
      (∃ v ∈ l, v.id = w) ∧ pyStartswith w UNAUTHORIZED_VEHICLE_PREFIX = true :=
  unauthorized_mem_detect_anomalies c l w

theorem claim_C2_witness :
    Anomaly.unauthorized "unauth42" ∈
      (detect_anomalies emptyCounters [Obs.mk "unauth42" 3]).2 :=
  (claim_C2_unauthorized_iff emptyCounters [Obs.mk "unauth42" 3] "unauth42").mpr
    ⟨⟨Obs.mk "unauth42" 3, by simp, rfl⟩, by decide⟩

/-! ### Claim C6 -/

/-- C6: running the detector from the initial empty `stop_counters` over any
trace, the stored counter of a vehicle ID is absent iff the vehicle was never
observed, and otherwise equals the number of consecutive most-recent
observations of that vehicle with speed below 0.1 (0 if it was last observed
with speed at least 0.1) — in particular it is a non-negative integer. -/
theorem claim_C6_counter_invariant (steps : List (List Obs)) (vid : String) :
    ((runDetect emptyCounters steps).1 vid =
        if obsSpeeds steps vid = [] then none
        else some ↑(trailingStopped (obsSpeeds steps vid))) ∧
    (∀ n : Int, (runDetect emptyCounters steps).1 vid = some n → 0 ≤ n) := by
  have h := runDetect_counters steps emptyCounters vid
  rw [show emptyCounters vid = none from rfl, foldl_step1_none,
    streakFrom_zero_eq_trailingStopped] at h
  refine ⟨h, ?_⟩
  intro n hn
  rw [h] at hn
  by_cases he : obsSpeeds steps vid = []
  · rw [if_pos he] at hn; cases hn
  · rw [if_neg he] at hn
    have hc : (↑(trailingStopped (obsSpeeds steps vid)) : Int) = n := Option.some.inj hn
    omega

theorem claim_C6_witness :
    (runDetect emptyCounters [[Obs.mk "veh0" 0]]).1 "veh0" =
      if obsSpeeds [[Obs.mk "veh0" 0]] "veh0" = [] then none
      else some ↑(trailingStopped (obsSpeeds [[Obs.mk "veh0" 0]] "veh0")) :=
  (claim_C6_counter_invariant [[Obs.mk "veh0" 0]] "veh0").1

/-! ### Claim C9 -/

/-- C9: `detect_anomalies` never removes a `stop_counters` entry, leaves the
counter of every vehicle ID absent from the current ID list unchanged, and
when a vehicle with a stored counter `k` is observed stopped again its
counting resumes from `k` (becoming `k + 1`) rather than from 0, so counted
steps need not be consecutive steps of continuous presence. -/
theorem claim_C9_frame_and_resume :
    (∀ (c : Counters) (l : List Obs) (vid : String) (n : Int),
        c vid = some n → ∃ m, (detect_anomalies c l).1 vid = some m) ∧
    (∀ (c : Counters) (l : List Obs) (vid : String),
        (∀ v ∈ l, v.id ≠ vid) → (detect_anomalies c l).1 vid = c vid) ∧
    (∀ (c : Counters) (vid : String) (k : Int) (s : ℚ),
        c vid = some k → s < (0.1:ℚ) →
        (detect_anomalies c [⟨vid, s⟩]).1 vid = some (k + 1)) := by
  refine ⟨?_, ?_, ?_⟩
  · intro c l vid n hn
    rw [detect_anomalies_counters, hn]
    exact ⟨streakFrom n (obsSpeedsIn l vid), foldl_step1_some _ _⟩
  · intro c l vid hno
    rw [detect_anomalies_counters]
    have hempty : obsSpeedsIn l vid = [] := by
      rw [obsSpeedsIn, List.filterMap_eq_nil_iff]
      intro v hv
      simp [hno v hv]
    rw [hempty, List.foldl_nil]
  · intro c vid k s hk hs
    rw [detect_anomalies_singleton, detectVehicle_counters]
    simp [step1, hs, hk]

/-- A concrete `stop_counters` state holding a partially accumulated count. -/
def countersWith3 : Counters := fun x => if x = "veh0" then some 3 else none

theorem claim_C9_witness :
    (detect_anomalies countersWith3 [Obs.mk "veh0" 0]).1 "veh0" = some 4 := by
  have h := claim_C9_frame_and_resume.2.2 countersWith3 "veh0" 3 0
    (by simp [countersWith3]) (by norm_num)
  simpa using h

/-! ### Claim C7 -/

theorem digitChar_isDigit (m : Nat) (hm : m < 10) : (Nat.digitChar m).isDigit = true := by
  interval_cases m <;> decide

theorem toDigitsCore_digits :
    ∀ (f n : Nat) (l : List Char), (∀ c ∈ l, c.isDigit = true) →
      ∀ c ∈ Nat.toDigitsCore 10 f n l, c.isDigit = true := by
  intro f
  induction f with
  | zero => intro n l hl; simpa [Nat.toDigitsCore] using hl
  | succ f ih =>
    intro n l hl
    simp only [Nat.toDigitsCore]
    have hcons : ∀ c ∈ Nat.digitChar (n % 10) :: l, c.isDigit = true := by
      intro c hc
      rcases List.mem_cons.1 hc with rfl | hc
      · exact digitChar_isDigit _ (Nat.mod_lt _ (by norm_num))
      · exact hl c hc
    by_cases h : n / 10 = 0
    · rw [if_pos h]
      exact hcons
    · rw [if_neg h]
      exact ih (n / 10) _ hcons

theorem toString_nat_digits (t : Nat) : ∀ c ∈ (toString t).data, c.isDigit = true := by
  intro c hc
  have hd : (toString t).data = Nat.toDigitsCore 10 (t + 1) t [] := rfl
  rw [hd] at hc
  exact toDigitsCore_digits (t + 1) t [] (by simp) c hc

/-- C7: every vehicle inserted by `inject_unauthorized_vehicle` has an ID of
the form `"unauth"` followed by decimal digits, which satisfies the prefix
predicate used by `detect_anomalies`, so an injected vehicle is classified as
unauthorized at every detection step at which it is present on the network. -/
theorem claim_C7_roundtrip (t : Nat) :
    ((new_id t).data = UNAUTHORIZED_VEHICLE_PREFIX.data ++ (toString t).data ∧
      ∀ ch ∈ (toString t).data, ch.isDigit = true) ∧
    pyStartswith (new_id t) UNAUTHORIZED_VEHICLE_PREFIX = true ∧
    (∀ (c : Counters) (l : List Obs) (v : Obs),
        v ∈ l → v.id = new_id t →
        Anomaly.unauthorized (new_id t) ∈ (detect_anomalies c l).2) := by
  have hdata : (new_id t).data = UNAUTHORIZED_VEHICLE_PREFIX.data ++ (toString t).data := rfl
  have hstart : pyStartswith (new_id t) UNAUTHORIZED_VEHICLE_PREFIX = true := by
    rw [pyStartswith, hdata, List.isPrefixOf_iff_prefix]
    exact List.prefix_append _ _
  refine ⟨⟨hdata, toString_nat_digits t⟩, hstart, ?_⟩
  intro c l v hv hid
  exact (unauthorized_mem_detect_anomalies c l (new_id t)).mpr ⟨⟨v, hv, hid⟩, hstart⟩

theorem claim_C7_witness :
    Anomaly.unauthorized (new_id 1700000000) ∈
      (detect_anomalies emptyCounters [Obs.mk (new_id 1700000000) 3]).2 :=
  (claim_C7_roundtrip 1700000000).2.2 emptyCounters
    [Obs.mk (new_id 1700000000) 3] (Obs.mk (new_id 1700000000) 3) (by simp) rfl

/-! ### Claim C3 -/

set_option maxRecDepth 10000 in
set_option maxHeartbeats 1000000 in
/-- C3: over the 300-iteration main loop, the forced-stop injection happens
exactly once, at loop step 50, and the unauthorized-vehicle insertion exactly
once, at loop step 100; in every iteration the detection action is the final
action, hence runs after any injection due at that step. -/
theorem claim_C3_injection_schedule :
    run_simulation_events.filter isStopInjection = [Event.injectStop 50] ∧
    run_simulation_events.filter isUnauthInjection = [Event.injectUnauth 100] ∧
    (∀ step : Nat, ∃ pre : List Event,
        stepEvents step = pre ++ [Event.detectStep step]) := by
  refine ⟨by decide, by decide, ?_⟩
  intro n
  exact ⟨[Event.simStep n] ++ (if n = 50 then [Event.injectStop n] else [])
      ++ (if n = 100 then [Event.injectUnauth n] else []), by simp [stepEvents]⟩

theorem claim_C3_witness :
    ∃ pre : List Event, stepEvents 50 = pre ++ [Event.detectStep 50] :=
  claim_C3_injection_schedule.2.2 50

/-! ### Claim C5 -/

/-- C5: the program's only failure handling is the single try/except around
the unauthorized-vehicle insertion: a TraCIException raised by
`traci.vehicle.add` is caught, an `[ERROR]` line is printed, and execution
continues with `stop_counters` unchanged; every other modelled API operation
propagates its exception uncaught (`detect_anomalies` on a failing
`getIDList` or `getSpeed`, `inject_sudden_stop_anomaly` on a failing
`getIDList` or `setSpeed`, and the loop body on a failing `simulationStep`). -/
theorem claim_C5_only_catch :
    (∀ (api : Traci) (t : Nat) (c : Counters) (e : String),
        api.add (new_id t) "route_0" = .error e →
        inject_unauthorized_vehicle api t c =
          .ok (c, ["[ERROR] Could not inject unauthorized vehicle: " ++ e])) ∧
    (∀ (api : Traci) (c : Counters) (e : String),
        api.getIDList = .error e → detect_anomaliesE api c = .error e) ∧
    (∀ (api : Traci) (c : Counters) (vid : String) (e : String),
        api.getIDList = .ok [vid] → api.getSpeed vid = .error e →
        detect_anomaliesE api c = .error e) ∧
    (∀ (api : Traci) (choice : Nat) (e : String),
        api.getIDList = .error e → inject_sudden_stop_anomaly api choice = .error e) ∧
    (∀ (api : Traci) (choice : Nat) (v : String) (vs : List String) (e : String),
        api.getIDList = .ok (v :: vs) → (∀ w q, api.setSpeed w q = .error e) →
        inject_sudden_stop_anomaly api choice = .error e) ∧
    (∀ (api : Traci) (step t choice : Nat) (c : Counters) (e : String),
        api.simulationStep = .error e → loop_body api step t choice c = .error e) := by
  refine ⟨?_, ?_, ?_, ?_, ?_, ?_⟩
  · intro api t c e h
    simp [inject_unauthorized_vehicle, h]
  · intro api c e h
    simp [detect_anomaliesE, h]
  · intro api c vid e h1 h2
    simp [detect_anomaliesE, h1, h2, List.foldlM]
  · intro api choice e h
    simp [inject_sudden_stop_anomaly, h]
  · intro api choice v vs e h1 h2
    simp [inject_sudden_stop_anomaly, h1, h2]
  · intro api step t choice c e h
    simp [loop_body, h]

theorem claim_C5_witness :
    inject_unauthorized_vehicle addFailsApi 0 emptyCounters =
      .ok (emptyCounters,
        ["[ERROR] Could not inject unauthorized vehicle: " ++ "route route_0 not known"]) :=
  claim_C5_only_catch.1 addFailsApi 0 emptyCounters "route route_0 not known" rfl

/-! ### Claim C10 -/

/-- C10: if the simulation contains no vehicles when the forced-stop injection
runs, `inject_sudden_stop_anomaly` returns without raising an error and
without issuing any command (so no program state changes); otherwise it sets
the speed of exactly one currently present vehicle to 0. -/
theorem claim_C10_stop_injection :
    (∀ (api : Traci) (choice : Nat), api.getIDList = .ok [] →
        inject_sudden_stop_anomaly api choice = .ok []) ∧
    (∀ (api : Traci) (choice : Nat) (v : String) (vs : List String),
        api.getIDList = .ok (v :: vs) → (∀ w q, api.setSpeed w q = .ok ()) →
        ∃ w ∈ v :: vs,
          inject_sudden_stop_anomaly api choice = .ok [Command.setSpeed w 0]) := by
  constructor
  · intro api choice h
    simp [inject_sudden_stop_anomaly, h]
  · intro api choice v vs h1 h2
    have hlt : choice % (v :: vs).length < (v :: vs).length :=
      Nat.mod_lt _ (by simp)
    refine ⟨(v :: vs).getD (choice % (v :: vs).length) v, ?_, ?_⟩
    · rw [List.getD_eq_getElem _ _ hlt]
      exact List.getElem_mem _
    · simp [inject_sudden_stop_anomaly, h1, h2]

theorem claim_C10_witness :
    ∃ w ∈ ["veh0", "veh1"],
      inject_sudden_stop_anomaly okApi 0 = .ok [Command.setSpeed w 0] :=
  claim_C10_stop_injection.2 okApi 0 "veh0" ["veh1"] rfl (fun _ _ => rfl)

end RunSumo
